import Mathlib

/-
  Verification of the protocol/geometry layer of an SSD1331 OLED driver
  (Adafruit_SSD1331.cpp).

  The driver translates 2-D drawing primitives into SSD1331 controller
  command bytes sent over SPI.  We model the byte stream emitted by one
  drawing call as a `List Nat` (each element one `spiWrite` byte, always
  < 256); the command/data select line and SPI transaction brackets
  (`startWrite`/`endWrite`, `SPI_DC_LOW`/`SPI_DC_HIGH`) carry no bytes and
  are not part of the trace.  The post-command busy delay (microseconds
  passed to `delayMicroseconds`) is returned as a second component where
  the source computes one; an early return is modelled as `([], 0)`
  (no bytes, no delay).

  C integer semantics: `int16_t` values are modelled as `Int` with an
  explicit 16-bit two's-complement wrap (`wrap16`) at every point where a
  wider intermediate result is stored back into an `int16_t` (gcc/Arduino
  semantics for the out-of-range conversion).  The plain C `int` is taken
  to be 32 bits wide (the common case for boards running this driver), so
  `int` intermediates such as the clip amounts in `copyBits` and the
  `(w * h) >> 2` delay never wrap in the ranges reachable from `int16_t`
  inputs.  `>>` on a negative `int` is arithmetic shift (gcc), modelled by
  `Int.shiftRight`; `&` is `Int.land` (two's complement).
-/

namespace SSD1331

/-- Store an integer into an `int16_t`: 16-bit two's-complement wrap. -/
def wrap16 (z : Int) : Int := (z + 32768) % 65536 - 32768

/-- Conversion of the (`int16_t`) argument of `spiWrite(uint8_t)` to the
byte actually shifted out on the wire: reduction mod 2^8. -/
def toByte (z : Int) : Nat := (z % 256).toNat

/-- Modelled from the spec: the SSD1331 command opcodes are `#define`s in
the library header `Adafruit_SSD1331.h`, which is not among the given
sources; the spec requires fixed, distinct one-byte opcodes for
clear, fill-enable, draw-rectangle, draw-line, copy, set-remap and the
column/row window commands.  Values follow the SSD1331 data sheet. -/
def SSD1331_CMD_SETCOLUMN : Nat := 0x15

/-- Modelled from the spec: draw-line opcode (see `SSD1331_CMD_SETCOLUMN`). -/
def SSD1331_CMD_DRAWLINE : Nat := 0x21

/-- Modelled from the spec: draw-rectangle opcode (see `SSD1331_CMD_SETCOLUMN`). -/
def SSD1331_CMD_DRAWRECT : Nat := 0x22

/-- Modelled from the spec: copy opcode (see `SSD1331_CMD_SETCOLUMN`). -/
def SSD1331_CMD_COPY : Nat := 0x23

/-- Modelled from the spec: clear-window opcode (see `SSD1331_CMD_SETCOLUMN`). -/
def SSD1331_CMD_CLEAR : Nat := 0x25

/-- Modelled from the spec: fill-enable/disable opcode (see `SSD1331_CMD_SETCOLUMN`). -/
def SSD1331_CMD_FILL : Nat := 0x26

/-- Modelled from the spec: set-row opcode (see `SSD1331_CMD_SETCOLUMN`). -/
def SSD1331_CMD_SETROW : Nat := 0x75

/-- Modelled from the spec: set-remap opcode (see `SSD1331_CMD_SETCOLUMN`). -/
def SSD1331_CMD_SETREMAP : Nat := 0xA0

/-- Color-order bits OR-ed into the set-remap operand.  The source fixes
this at build time (`SSD1331_COLORORDER_RGB` not defined by default, so
the BGR pattern `0b01100100` is used). -/
def SETREMAP_COLOR_BITS : Nat := 0b01100100

/-- Remap bits for rotation 0 (source line 75). -/
def SETREMAP_ROTATION_0_BITS : Nat := 0b00010010

/-- Remap bits for rotation 1 (source line 76). -/
def SETREMAP_ROTATION_1_BITS : Nat := 0b00000011

/-- Remap bits for rotation 2 (source line 77). -/
def SETREMAP_ROTATION_2_BITS : Nat := 0b00000000

/-- Remap bits for rotation 3 (source line 78). -/
def SETREMAP_ROTATION_3_BITS : Nat := 0b00010001

/-- Device state consulted by every drawing call.  `rotation`, `_width`
and `_height` are the fields of the same names inherited from the
Adafruit_GFX base class; `WIDTH`/`HEIGHT` are the fixed physical panel
dimensions set by the constructor (TFTWIDTH = 96, TFTHEIGHT = 64 for this
panel). -/
structure SSD1331State where
  rotation : Nat
  WIDTH : Int
  HEIGHT : Int
  _width : Int
  _height : Int

/-- The 96x64 panel in rotation 0, as configured by `begin()`. -/
def st96 : SSD1331State :=
  { rotation := 0, WIDTH := 96, HEIGHT := 64, _width := 96, _height := 64 }

/-- `spiWriteXY` (source lines 181-186): emits the coordinate pair,
swapped when the rotation is odd (`bool swap = rotation & 0x01`).  The
`int16_t` parameter conversion is absorbed into `toByte` (wrapping mod
2^16 then truncating mod 2^8 equals truncating mod 2^8). -/
def spiWriteXY (st : SSD1331State) (x y : Int) : List Nat :=
  if st.rotation &&& 0x01 ≠ 0 then [toByte y, toByte x] else [toByte x, toByte y]

/-- `spiWriteColor` (source lines 188-193): re-split a packed color into
three 6-bit channel bytes.  The parameter is declared `int16_t`, so the
shifts are arithmetic; `color << 1` is modelled as `color * 2` (gcc
semantics for left shift of a negative `int`). -/
def spiWriteColor (color : Int) : List Nat :=
  [toByte (Int.land (Int.shiftRight color 10) 0x3E),  -- (color >> 10) & 0x3E  red
   toByte (Int.land (Int.shiftRight color 5) 0x3F),   -- (color >> 5) & 0x3F   green
   toByte (Int.land (color * 2) 0x3E)]                -- (color << 1) & 0x3E   blue

/-- `writeLine` (source lines 336-355).  `color` is the `uint16_t`
argument; it is converted to `int16_t` where it is handed to
`spiWriteColor`. -/
def writeLine (st : SSD1331State) (x0 y0 x1 y1 : Int) (color : Nat) : List Nat :=
  if x0 < 0 ∨ x0 ≥ st._width ∨
     x1 < 0 ∨ x1 ≥ st._width ∨
     y0 < 0 ∨ y0 ≥ st._height ∨
     y1 < 0 ∨ y1 ≥ st._height then
    []
  else
    SSD1331_CMD_DRAWLINE ::
      (spiWriteXY st x0 y0 ++ spiWriteXY st x1 y1 ++ spiWriteColor (wrap16 color))

/-- `writeFastVLine` (source lines 315-319): `writeLine(x, y, x, y + h, color)`;
the sum is stored into the callee's `int16_t` parameter. -/
def writeFastVLine (st : SSD1331State) (x y h : Int) (color : Nat) : List Nat :=
  writeLine st x y x (wrap16 (y + h)) color

/-- `writeFastHLine` (source lines 320-324): `writeLine(x, y, x + w, y, color)`. -/
def writeFastHLine (st : SSD1331State) (x y w : Int) (color : Nat) : List Nat :=
  writeLine st x y (wrap16 (x + w)) y color

/-- `writeFillRect` (source lines 253-313).  Returns the emitted bytes and
the microseconds passed to `delayMicroseconds`; the early returns skip the
delay, modelled as `([], 0)`. -/
def writeFillRect (st : SSD1331State) (x y w h : Int) (color : Nat) :
    List Nat × Int :=
  let x1 := wrap16 (x + w)
  let y1 := wrap16 (y + h)
  -- Bail out if completely off-screen
  if x1 < 0 ∨ x ≥ st._width ∨ y1 < 0 ∨ y ≥ st._height then ([], 0)
  else
    let x := if x < 0 then 0 else x
    let x1 := if x1 > st._width then st._width else x1
    let y := if y < 0 then 0 else y
    let y1 := if y1 > st._height then st._height else y1
    -- Bail out if clipped rect is empty
    if x1 - 1 < x ∨ y1 - 1 < y then ([], 0)
    else
      let bytes :=
        if color = 0 then
          -- less expensive clear command
          SSD1331_CMD_CLEAR ::
            (spiWriteXY st x y ++ spiWriteXY st (x1 - 1) (y1 - 1))
        else if x = x1 ∨ y = y1 then
          -- 1-pixel-wide-or-high rect: line-drawing command
          writeLine st x y x1 y1 color
        else
          -- actual fill-rect command
          SSD1331_CMD_FILL :: 0x01 :: SSD1331_CMD_DRAWRECT ::
            (spiWriteXY st x y ++ spiWriteXY st (x1 - 1) (y1 - 1) ++
             spiWriteColor (wrap16 color) ++ spiWriteColor (wrap16 color))
      (bytes, Int.shiftRight (w * h) 2)  -- int delay = (w * h) >> 2

/-- `fillRect` (source lines 408-413): `startWrite` / `writeFillRect` /
`endWrite`; the brackets emit no bytes. -/
def fillRect (st : SSD1331State) (x y w h : Int) (color : Nat) :
    List Nat × Int :=
  writeFillRect st x y w h color

/-- `drawLine` (source lines 436-441): `startWrite` / `writeLine` /
`endWrite`. -/
def drawLine (st : SSD1331State) (x0 y0 x1 y1 : Int) (color : Nat) : List Nat :=
  writeLine st x0 y0 x1 y1 color

/-- `drawRect` (source lines 452-482): unfilled rectangle. -/
def drawRect (st : SSD1331State) (x y w h : Int) (color : Nat) : List Nat :=
  if x < 0 ∨ x ≥ st._width ∨ y < 0 ∨ y ≥ st._height ∨ w ≤ 0 ∨ h ≤ 0 then []
  else
    let x1 := wrap16 (x + w)
    let y1 := wrap16 (y + h)
    let x1 := if x1 > st._width then st._width else x1
    let y1 := if y1 ≥ st._height then st._height else y1
    SSD1331_CMD_FILL :: 0x00 :: SSD1331_CMD_DRAWRECT ::
      (spiWriteXY st x y ++ spiWriteXY st (x1 - 1) (y1 - 1) ++
       spiWriteColor (wrap16 color) ++ spiWriteColor (wrap16 color))

/-- `copyBits` (source lines 486-547, under `SSD1331_EXTRAS`).  `min_x`,
`max_x`, `clip` are plain `int`s (no wrap); the compound assignments back
into the `int16_t` parameters wrap. -/
def copyBits (st : SSD1331State) (x y w h dx dy : Int) (invert : Bool) :
    List Nat × Int :=
  let min_x := min x dx
  let max_x := max x dx + w
  let clip := - min_x
  -- if (clip > 0) { x += clip; dx += clip; w -= clip; }
  let x := if clip > 0 then wrap16 (x + clip) else x
  let dx := if clip > 0 then wrap16 (dx + clip) else dx
  let w := if clip > 0 then wrap16 (w - clip) else w
  let clip := max_x - st._width
  let w := if clip > 0 then wrap16 (w - clip) else w
  if w ≤ 0 then ([], 0)
  else
    let min_y := min y dy
    let max_y := max y dy + h
    let clip := - min_y
    -- if (clip > 0) { y += clip; dy += clip; h -= clip; }
    let y := if clip > 0 then wrap16 (y + clip) else y
    let dy := if clip > 0 then wrap16 (dy + clip) else dy
    let h := if clip > 0 then wrap16 (h - clip) else h
    let clip := max_y - st._height
    let h := if clip > 0 then wrap16 (h - clip) else h
    if h ≤ 0 then ([], 0)
    else
      (SSD1331_CMD_FILL :: (if invert then 0x10 else 0x00) :: SSD1331_CMD_COPY ::
        (spiWriteXY st x y ++ spiWriteXY st (x + w - 1) (y + h - 1) ++
         spiWriteXY st dx dy),
       Int.shiftRight (w * h) 2)  -- int delay = (w * h) >> 2

/-- The copyBits clipping as worded by the spec (section 4.3, block copy):
shift source and destination origins together by the amount the combined
minimum is negative (shrinking the extent), then shrink the extent by the
amount the combined maximum exceeds the edge, identically per axis; no-op
when a resulting extent is non-positive.  Stated with exact integer
arithmetic (no int16 wrap); used as the reference model the code is
compared against. -/
def specCopyBits (st : SSD1331State) (x y w h dx dy : Int) (invert : Bool) :
    List Nat × Int :=
  let sx := max 0 (-(min x dx))
  let ex := max 0 (max x dx + w - st._width)
  let w' := w - sx - ex
  let sy := max 0 (-(min y dy))
  let ey := max 0 (max y dy + h - st._height)
  let h' := h - sy - ey
  if w' ≤ 0 ∨ h' ≤ 0 then ([], 0)
  else
    (SSD1331_CMD_FILL :: (if invert then 0x10 else 0x00) :: SSD1331_CMD_COPY ::
      (spiWriteXY st (x + sx) (y + sy) ++
       spiWriteXY st (x + sx + w' - 1) (y + sy + h' - 1) ++
       spiWriteXY st (dx + sx) (dy + sy)),
     Int.shiftRight (w' * h') 2)

/-- The rotation bits selected by the `switch` in `setRotation` (source
lines 209-226; a rotation value outside 0-3 leaves `remap_bits`
unchanged, i.e. contributes 0). -/
def rotationBits (rotation : Nat) : Nat :=
  match rotation with
  | 0 => SETREMAP_ROTATION_0_BITS
  | 1 => SETREMAP_ROTATION_1_BITS
  | 2 => SETREMAP_ROTATION_2_BITS
  | 3 => SETREMAP_ROTATION_3_BITS
  | _ => 0

/-- `setRotation` (source lines 195-230): returns the updated state and
the two command bytes sent (`sendCommand` transmits one byte each). -/
def setRotation (st : SSD1331State) (r : Nat) : SSD1331State × List Nat :=
  let rotation := r &&& 0x03
  let wh : Int × Int :=
    if rotation &&& 1 ≠ 0 then (st.HEIGHT, st.WIDTH) else (st.WIDTH, st.HEIGHT)
  let remap_bits := SETREMAP_COLOR_BITS ||| rotationBits rotation
  ({ st with rotation := rotation, _width := wh.1, _height := wh.2 },
   [SSD1331_CMD_SETREMAP, remap_bits])

/-- The width/height-vs-rotation invariant of the device state: the
logical dimensions equal the physical ones, swapped exactly when the
rotation is odd. -/
def widthHeightInv (t : SSD1331State) : Prop :=
  t._width = (if t.rotation % 2 = 1 then t.HEIGHT else t.WIDTH) ∧
  t._height = (if t.rotation % 2 = 1 then t.WIDTH else t.HEIGHT)

/-! ## Helper lemmas -/

lemma wrap16_eq_self (z : Int) (h1 : -32768 ≤ z) (h2 : z ≤ 32767) :
    wrap16 z = z := by
  unfold wrap16; omega

lemma wrap16_natCast_low (c : Nat) (h : c < 32768) :
    wrap16 (c : Int) = Int.ofNat c := by
  rw [Int.ofNat_eq_natCast]; unfold wrap16; omega

lemma wrap16_natCast_high (c : Nat) (h1 : 32768 ≤ c) (h2 : c < 65536) :
    wrap16 (c : Int) = Int.negSucc (65535 - c) := by
  rw [Int.negSucc_eq, Nat.cast_sub (by omega)]; unfold wrap16; omega

lemma spiWriteColor_ofNat (n : Nat) :
    spiWriteColor (Int.ofNat n) =
      [((n >>> 10) &&& 62) % 256, ((n >>> 5) &&& 63) % 256,
       ((n * 2) &&& 62) % 256] := rfl

lemma negSucc_mul_two (m : Nat) :
    Int.negSucc m * 2 = Int.negSucc (2 * m + 1) := by
  rw [Int.negSucc_eq, Int.negSucc_eq]; push_cast; ring

lemma spiWriteColor_negSucc (m : Nat) :
    spiWriteColor (Int.negSucc m) =
      [Nat.ldiff 62 (m >>> 10) % 256, Nat.ldiff 63 (m >>> 5) % 256,
       Nat.ldiff 62 (2 * m + 1) % 256] := by
  unfold spiWriteColor
  rw [negSucc_mul_two]
  rfl

lemma and_63_eq_mod (x : Nat) : x &&& 63 = x % 64 := by
  have h := Nat.and_pow_two_sub_one_eq_mod x 6
  norm_num at h
  exact h

lemma and_62_mod_64 (x : Nat) : x &&& 62 = (x % 64) &&& 62 := by
  have h62 : (62 : Nat) = 63 &&& 62 := rfl
  conv_lhs => rw [h62]
  rw [← Nat.and_assoc, and_63_eq_mod]

lemma ldiff_small (n m : Nat) (hn : n < 64) :
    Nat.ldiff n m = n &&& (63 - m % 64) := by
  apply Nat.eq_of_testBit_eq
  intro i
  rw [Nat.testBit_ldiff, Nat.testBit_and]
  by_cases hi : i < 6
  · have h1 : (m % 64).testBit i = m.testBit i := by
      have h2 := Nat.testBit_mod_two_pow m 6 i
      norm_num [hi] at h2
      exact h2
    have key : ∀ r : Fin 64, ∀ j : Fin 6,
        (63 - r.val).testBit j.val = !(r.val.testBit j.val) := by decide
    have h3 := key ⟨m % 64, Nat.mod_lt _ (by norm_num)⟩ ⟨i, hi⟩
    simp only at h3
    rw [h3, h1]
  · have h64 : (64 : Nat) ≤ 2 ^ i := by
      calc (64 : Nat) = 2 ^ 6 := by norm_num
      _ ≤ 2 ^ i := Nat.pow_le_pow_right (by norm_num) (by omega)
    have hn' : n.testBit i = false :=
      Nat.testBit_lt_two_pow (lt_of_lt_of_le hn h64)
    have hr' : (63 - m % 64).testBit i = false :=
      Nat.testBit_lt_two_pow (lt_of_lt_of_le (by omega) h64)
    simp [hn', hr']

lemma and_62_eq_two_mul_div (d : Nat) (hd : d < 64) : d &&& 62 = 2 * (d / 2) := by
  have key : ∀ d : Fin 64, d.val &&& 62 = 2 * (d.val / 2) := by decide
  exact key ⟨d, hd⟩

lemma mul_two_and_62 (b : Nat) (hb : b < 32) : (2 * b) &&& 62 = 2 * b := by
  have key : ∀ b : Fin 32, (2 * b.val) &&& 62 = 2 * b.val := by decide
  exact key ⟨b, hb⟩

/-- The three channel bytes written by the source's mask-and-shift code,
expressed over the uint16 color value with logical shifts. -/
lemma spiWriteColor_wrap16 (c : Nat) (h : c < 65536) :
    spiWriteColor (wrap16 (c : Int)) =
      [(c >>> 10) &&& 62, (c >>> 5) &&& 63, (c <<< 1) &&& 62] := by
  have hshl : c <<< 1 = c * 2 := by
    rw [Nat.shiftLeft_eq]
  have hb : ∀ a b : Nat, a &&& b ≤ b := fun a b => Nat.and_le_right
  rcases lt_or_le c 32768 with hc | hc
  · rw [wrap16_natCast_low c hc, spiWriteColor_ofNat, hshl]
    have m1 : ((c >>> 10) &&& 62) % 256 = (c >>> 10) &&& 62 :=
      Nat.mod_eq_of_lt (lt_of_le_of_lt (hb _ _) (by norm_num))
    have m2 : ((c >>> 5) &&& 63) % 256 = (c >>> 5) &&& 63 :=
      Nat.mod_eq_of_lt (lt_of_le_of_lt (hb _ _) (by norm_num))
    have m3 : ((c * 2) &&& 62) % 256 = (c * 2) &&& 62 :=
      Nat.mod_eq_of_lt (lt_of_le_of_lt (hb _ _) (by norm_num))
    rw [m1, m2, m3]
  · rw [wrap16_natCast_high c hc h, spiWriteColor_negSucc]
    have hb1 : Nat.ldiff 62 ((65535 - c) >>> 10) % 256 = (c >>> 10) &&& 62 := by
      rw [Nat.shiftRight_eq_div_pow, Nat.shiftRight_eq_div_pow]
      norm_num
      rw [ldiff_small 62 _ (by norm_num)]
      have e1 : 63 - ((65535 - c) / 1024) % 64 = c / 1024 := by omega
      rw [e1, Nat.and_comm 62]
      exact Nat.mod_eq_of_lt (lt_of_le_of_lt (hb _ _) (by norm_num))
    have hb2 : Nat.ldiff 63 ((65535 - c) >>> 5) % 256 = (c >>> 5) &&& 63 := by
      rw [Nat.shiftRight_eq_div_pow, Nat.shiftRight_eq_div_pow]
      norm_num
      rw [ldiff_small 63 _ (by norm_num)]
      have e2 : 63 - ((65535 - c) / 32) % 64 = (c / 32) % 64 := by omega
      rw [e2, Nat.and_comm 63, and_63_eq_mod, and_63_eq_mod]
      omega
    have hb3 : Nat.ldiff 62 (2 * (65535 - c) + 1) % 256 = (c <<< 1) &&& 62 := by
      rw [hshl, ldiff_small 62 _ (by norm_num)]
      have e3 : 63 - (2 * (65535 - c) + 1) % 64 = 2 * (c % 32) := by omega
      rw [e3, Nat.and_comm 62, mul_two_and_62 (c % 32) (Nat.mod_lt _ (by norm_num)),
          and_62_mod_64 (c * 2)]
      have e4 : (c * 2) % 64 = 2 * (c % 32) := by omega
      rw [e4, mul_two_and_62 (c % 32) (Nat.mod_lt _ (by norm_num))]
      omega
    rw [hb1, hb2, hb3]

lemma and_3_eq_mod (r : Nat) : r &&& 3 = r % 4 := by
  have h := Nat.and_pow_two_sub_one_eq_mod r 2
  norm_num at h
  exact h

lemma and_1_eq_mod (r : Nat) : r &&& 1 = r % 2 :=
  Nat.and_one_is_mod r

lemma setRotation_fields (s : SSD1331State) (q : Nat) :
    (setRotation s q).1.rotation = q % 4 ∧
    (setRotation s q).1.WIDTH = s.WIDTH ∧
    (setRotation s q).1.HEIGHT = s.HEIGHT ∧
    widthHeightInv (setRotation s q).1 := by
  unfold setRotation widthHeightInv
  simp only [and_3_eq_mod, and_1_eq_mod]
  by_cases hodd : q % 4 % 2 = 1
  · simp [hodd]
  · have h0 : q % 4 % 2 = 0 := by omega
    simp [h0]

lemma foldl_setRotation_inv (rs : List Nat) : ∀ t : SSD1331State,
    widthHeightInv t →
    widthHeightInv (List.foldl (fun s q => (setRotation s q).1) t rs) ∧
    (List.foldl (fun s q => (setRotation s q).1) t rs).WIDTH = t.WIDTH ∧
    (List.foldl (fun s q => (setRotation s q).1) t rs).HEIGHT = t.HEIGHT := by
  induction rs with
  | nil => exact fun t ht => ⟨ht, rfl, rfl⟩
  | cons q qs ih =>
    intro t ht
    have h := setRotation_fields t q
    have h' := ih ((setRotation t q).1) h.2.2.2
    simp only [List.foldl_cons]
    exact ⟨h'.1, h'.2.1.trans h.2.1, h'.2.2.trans h.2.2.1⟩

/-- Master characterization of `writeFillRect` (no side conditions): the
two bail-outs merge into one condition over the clamped corners
`max x 0`, `min (wrap16 (x+w)) _width` (and the y analogues), the
degenerate line branch is unreachable, and every emission is followed by
the `(w * h) >> 2` delay. -/
lemma writeFillRect_eq (st : SSD1331State) (x y w h : Int) (c : Nat) :
    writeFillRect st x y w h c =
      if wrap16 (x + w) < 0 ∨ x ≥ st._width ∨
         wrap16 (y + h) < 0 ∨ y ≥ st._height ∨
         min (wrap16 (x + w)) st._width - 1 < max x 0 ∨
         min (wrap16 (y + h)) st._height - 1 < max y 0 then ([], 0)
      else
        ((if c = 0 then
            SSD1331_CMD_CLEAR ::
              (spiWriteXY st (max x 0) (max y 0) ++
               spiWriteXY st (min (wrap16 (x + w)) st._width - 1)
                 (min (wrap16 (y + h)) st._height - 1))
          else
            SSD1331_CMD_FILL :: 0x01 :: SSD1331_CMD_DRAWRECT ::
              (spiWriteXY st (max x 0) (max y 0) ++
               spiWriteXY st (min (wrap16 (x + w)) st._width - 1)
                 (min (wrap16 (y + h)) st._height - 1) ++
               spiWriteColor (wrap16 c) ++ spiWriteColor (wrap16 c))),
         Int.shiftRight (w * h) 2) := by
  have hx0 : (if x < 0 then (0 : Int) else x) = max x 0 := by omega
  have hy0 : (if y < 0 then (0 : Int) else y) = max y 0 := by omega
  have hx1 : (if wrap16 (x + w) > st._width then st._width
              else wrap16 (x + w)) = min (wrap16 (x + w)) st._width := by omega
  have hy1 : (if wrap16 (y + h) > st._height then st._height
              else wrap16 (y + h)) = min (wrap16 (y + h)) st._height := by omega
  simp only [writeFillRect, hx0, hy0, hx1, hy1]
  by_cases hA : wrap16 (x + w) < 0 ∨ x ≥ st._width ∨
      wrap16 (y + h) < 0 ∨ y ≥ st._height
  · have hM : wrap16 (x + w) < 0 ∨ x ≥ st._width ∨
        wrap16 (y + h) < 0 ∨ y ≥ st._height ∨
        min (wrap16 (x + w)) st._width - 1 < max x 0 ∨
        min (wrap16 (y + h)) st._height - 1 < max y 0 := by omega
    rw [if_pos hA, if_pos hM]
  · rw [if_neg hA]
    by_cases hB : min (wrap16 (x + w)) st._width - 1 < max x 0 ∨
        min (wrap16 (y + h)) st._height - 1 < max y 0
    · have hM : wrap16 (x + w) < 0 ∨ x ≥ st._width ∨
          wrap16 (y + h) < 0 ∨ y ≥ st._height ∨
          min (wrap16 (x + w)) st._width - 1 < max x 0 ∨
          min (wrap16 (y + h)) st._height - 1 < max y 0 := by omega
      rw [if_pos hB, if_pos hM]
    · have hM : ¬(wrap16 (x + w) < 0 ∨ x ≥ st._width ∨
          wrap16 (y + h) < 0 ∨ y ≥ st._height ∨
          min (wrap16 (x + w)) st._width - 1 < max x 0 ∨
          min (wrap16 (y + h)) st._height - 1 < max y 0) := by omega
      rw [if_neg hB, if_neg hM]
      have hline : ¬(max x 0 = min (wrap16 (x + w)) st._width ∨
          max y 0 = min (wrap16 (y + h)) st._height) := by omega
      by_cases hc : c = 0
      · rw [if_pos hc, if_pos hc]
      · rw [if_neg hc, if_neg hc, if_neg hline]

/-! ## Claim theorems -/

/-- C8: for every 16-bit packed 5-6-5 color, the color operand is emitted as
exactly three bytes: red `(color >> 10) & 0x3E`, green `(color >> 5) & 0x3F`,
blue `(color << 1) & 0x3E` — equivalently the top 5 red bits shifted into a
6-bit field, all 6 green bits, and the 5 blue bits shifted into a 6-bit
field; an exact re-splitting, not approximate. -/
theorem spiWriteColor_565_resplit (c : Nat) (h : c < 65536) :
    spiWriteColor (wrap16 (c : Int)) =
        [(c >>> 10) &&& 0x3E, (c >>> 5) &&& 0x3F, (c <<< 1) &&& 0x3E] ∧
    spiWriteColor (wrap16 (c : Int)) =
        [2 * (c >>> 11), (c >>> 5) % 64, 2 * (c % 32)] := by
  have hm := spiWriteColor_wrap16 c h
  refine ⟨hm, ?_⟩
  rw [hm]
  have g1 : (c >>> 10) &&& 62 = 2 * (c >>> 11) := by
    have h10 : c >>> 10 = c / 1024 := by
      rw [Nat.shiftRight_eq_div_pow]
    have h11 : c >>> 11 = c / 1024 / 2 := by
      rw [Nat.shiftRight_eq_div_pow, Nat.div_div_eq_div_mul]
    rw [h10, h11]
    exact and_62_eq_two_mul_div (c / 1024) (by omega)
  have g2 : (c >>> 5) &&& 63 = (c >>> 5) % 64 := and_63_eq_mod _
  have g3 : (c <<< 1) &&& 62 = 2 * (c % 32) := by
    have e0 : c <<< 1 = c * 2 := by rw [Nat.shiftLeft_eq]
    rw [e0, and_62_mod_64 (c * 2)]
    have e4 : (c * 2) % 64 = 2 * (c % 32) := by omega
    rw [e4, mul_two_and_62 (c % 32) (Nat.mod_lt _ (by norm_num))]
  rw [g1, g2, g3]

/-- Witness for C8 at the concrete color 0x1234. -/
theorem spiWriteColor_565_resplit_witness :
    (0x1234 : Nat) < 65536 ∧
    spiWriteColor (wrap16 ((0x1234 : Nat) : Int)) = [4, 17, 40] := by
  refine ⟨by norm_num, ?_⟩
  rw [(spiWriteColor_565_resplit 0x1234 (by norm_num)).1]
  decide

/-- C4: `writeLine` (and hence `drawLine`) is an all-or-nothing clip: if
either endpoint lies outside `[0,_width) x [0,_height)` the call emits no
bytes at all; otherwise it emits exactly the DRAWLINE opcode, both endpoint
coordinate pairs and one color triple (8 bytes). -/
theorem writeLine_all_or_nothing (st : SSD1331State) (x0 y0 x1 y1 : Int)
    (c : Nat) :
    (writeLine st x0 y0 x1 y1 c = [] ↔
      ¬(0 ≤ x0 ∧ x0 < st._width ∧ 0 ≤ x1 ∧ x1 < st._width ∧
        0 ≤ y0 ∧ y0 < st._height ∧ 0 ≤ y1 ∧ y1 < st._height)) ∧
    ((0 ≤ x0 ∧ x0 < st._width ∧ 0 ≤ x1 ∧ x1 < st._width ∧
        0 ≤ y0 ∧ y0 < st._height ∧ 0 ≤ y1 ∧ y1 < st._height) →
      writeLine st x0 y0 x1 y1 c =
        SSD1331_CMD_DRAWLINE ::
          (spiWriteXY st x0 y0 ++ spiWriteXY st x1 y1 ++
           spiWriteColor (wrap16 c)) ∧
      (writeLine st x0 y0 x1 y1 c).length = 8) ∧
    drawLine st x0 y0 x1 y1 c = writeLine st x0 y0 x1 y1 c := by
  refine ⟨?_, ?_, rfl⟩
  · unfold writeLine
    split_ifs with hcond
    · exact iff_of_true rfl (by omega)
    · exact iff_of_false (by simp) (by omega)
  · intro hP
    unfold writeLine
    rw [if_neg (by omega)]
    refine ⟨rfl, ?_⟩
    unfold spiWriteXY spiWriteColor
    split_ifs <;> simp

/-- Witness for C4: an in-bounds line emits the 8-byte DRAWLINE frame; the
partially-offscreen line (-1,5)-(10,5) on the 96x64 panel emits nothing. -/
theorem writeLine_all_or_nothing_witness :
    writeLine st96 0 5 10 5 0x1234 = [0x21, 0, 5, 10, 5, 4, 17, 40] ∧
    writeLine st96 (-1) 5 10 5 3 = [] := by
  constructor
  · rw [((writeLine_all_or_nothing st96 0 5 10 5 0x1234).2.1 (by decide)).1]
    decide
  · exact (writeLine_all_or_nothing st96 (-1) 5 10 5 3).1.mpr (by decide)

/-- C9: whenever `writeFillRect` emits any command its post-command delay is
exactly `(w * h) >> 2` microseconds computed from the caller-supplied
extents, a full-panel fill waits 1536 us, and a clipped-away call performs
no delay. -/
theorem writeFillRect_delay (st : SSD1331State) (x y w h : Int) (c : Nat) :
    ((writeFillRect st x y w h c).1 ≠ [] →
      (writeFillRect st x y w h c).2 = Int.shiftRight (w * h) 2) ∧
    ((writeFillRect st x y w h c).1 = [] →
      (writeFillRect st x y w h c).2 = 0) ∧
    (writeFillRect st96 0 0 96 64 c).2 = 1536 := by
  rw [writeFillRect_eq st x y w h c, writeFillRect_eq st96 0 0 96 64 c]
  refine ⟨?_, ?_, ?_⟩
  · split_ifs <;> intro hne <;> first | exact absurd rfl hne | rfl
  · split_ifs <;> intro he <;> first | rfl | simp at he
  · rw [if_neg (by decide)]
    rfl

/-- Witness for C9 at a full-panel fill. -/
theorem writeFillRect_delay_witness :
    (writeFillRect st96 0 0 96 64 5).1 ≠ [] ∧
    (writeFillRect st96 0 0 96 64 5).2 = Int.shiftRight (96 * 64) 2 := by
  exact ⟨by decide, (writeFillRect_delay st96 0 0 96 64 5).1 (by decide)⟩

/-- C10: `writeFastHLine` passes `(x + w, y)` and `writeFastVLine` passes
`(x, y + h)` as the second endpoint of a general line call; since
`writeLine` rejects any endpoint coordinate `>= ` the logical bound, a fast
line that exactly reaches the right (resp. bottom) edge is a silent
no-op. -/
theorem fastLine_full_extent_noop (st : SSD1331State) (x y w h : Int)
    (c : Nat)
    (hW : 0 < st._width) (hW2 : st._width ≤ 32767)
    (hH : 0 < st._height) (hH2 : st._height ≤ 32767) :
    writeFastHLine st x y w c = writeLine st x y (wrap16 (x + w)) y c ∧
    writeFastVLine st x y h c = writeLine st x y x (wrap16 (y + h)) c ∧
    (0 ≤ x → 0 ≤ y → y < st._height → x + w = st._width →
      writeFastHLine st x y w c = []) ∧
    (0 ≤ x → 0 ≤ y → x < st._width → y + h = st._height →
      writeFastVLine st x y h c = []) := by
  refine ⟨rfl, rfl, ?_, ?_⟩
  · intro h1 h2 h3 h4
    unfold writeFastHLine writeLine
    rw [wrap16_eq_self _ (by omega) (by omega)]
    exact if_pos (by omega)
  · intro h1 h2 h3 h4
    unfold writeFastVLine writeLine
    rw [wrap16_eq_self _ (by omega) (by omega)]
    exact if_pos (by omega)

/-- Witness for C10: full-width and full-height fast lines on the 96x64
panel emit nothing. -/
theorem fastLine_full_extent_noop_witness :
    writeFastHLine st96 0 5 96 3 = [] ∧ writeFastVLine st96 5 0 64 3 = [] :=
  ⟨(fastLine_full_extent_noop st96 0 5 96 0 3 (by decide) (by decide)
      (by decide) (by decide)).2.2.1 (by decide) (by decide) (by decide)
      (by decide),
   (fastLine_full_extent_noop st96 5 0 0 64 3 (by decide) (by decide)
      (by decide) (by decide)).2.2.2 (by decide) (by decide) (by decide)
      (by decide)⟩

/-- C7: `setRotation r` sets `rotation` to `r & 3`, recomputes `_width` and
`_height` together (swapped exactly when the masked rotation is odd),
re-emits the set-remap command with the color-order bits OR-ed with the
fixed per-rotation bit pattern, and after any further sequence of
`setRotation` calls the swap invariant still holds. -/
theorem setRotation_spec (st : SSD1331State) (r : Nat) :
    (setRotation st r).1.rotation = r % 4 ∧
    ((setRotation st r).1._width, (setRotation st r).1._height) =
      (if r % 4 % 2 = 1 then (st.HEIGHT, st.WIDTH)
       else (st.WIDTH, st.HEIGHT)) ∧
    (setRotation st r).2 =
      [SSD1331_CMD_SETREMAP, SETREMAP_COLOR_BITS ||| rotationBits (r % 4)] ∧
    (∀ rs : List Nat,
      widthHeightInv
        (List.foldl (fun s q => (setRotation s q).1) (setRotation st r).1 rs) ∧
      (List.foldl (fun s q => (setRotation s q).1)
          (setRotation st r).1 rs).WIDTH = st.WIDTH ∧
      (List.foldl (fun s q => (setRotation s q).1)
          (setRotation st r).1 rs).HEIGHT = st.HEIGHT) := by
  have hf := setRotation_fields st r
  refine ⟨hf.1, ?_, ?_, ?_⟩
  · have hinv := hf.2.2.2
    unfold widthHeightInv at hinv
    rw [hf.1, hf.2.1, hf.2.2.1] at hinv
    rw [Prod.mk.injEq]
    by_cases hodd : r % 4 % 2 = 1
    · simp only [hodd] at hinv ⊢
      norm_num at hinv ⊢
      exact hinv
    · have h0 : r % 4 % 2 = 0 := by omega
      simp only [h0] at hinv ⊢
      norm_num at hinv ⊢
      exact hinv
  · show [SSD1331_CMD_SETREMAP, SETREMAP_COLOR_BITS ||| rotationBits (r &&& 3)]
        = _
    rw [and_3_eq_mod]
  · intro rs
    have h := foldl_setRotation_inv rs (setRotation st r).1 hf.2.2.2
    exact ⟨h.1, h.2.1.trans hf.2.1, h.2.2.trans hf.2.2.1⟩

/-- C1 counterexample: with x = -30000, w = -10000 (and color 5) on the
96x64 panel, the requested rectangle is empty (its intersection with the
screen is empty: min (x+w) _width <= max x 0), yet — because x + w
overflows int16 and wraps to +25536 — `writeFillRect` emits a nonempty
command trace instead of being a silent no-op. -/
theorem writeFillRect_overflow_emits :
    (writeFillRect st96 (-30000) 0 (-10000) 10 5).1 ≠ [] ∧
    min ((-30000 : Int) + (-10000)) st96._width ≤ max (-30000 : Int) 0 :=
  ⟨by decide, by decide⟩

/-- C1 (amended): provided x + w and y + h stay within int16 range,
`writeFillRect` addresses exactly the intersection of the requested
rectangle with [0,_width) x [0,_height): an empty intersection emits no
bytes (and no delay), and otherwise the emitted coordinates are exactly
the clamped corners (max x 0, max y 0) and
(min (x+w) _width - 1, min (y+h) _height - 1), for every rotation and
color. -/
theorem writeFillRect_clips_exactly (st : SSD1331State) (x y w h : Int)
    (c : Nat)
    (hxw1 : -32768 ≤ x + w) (hxw2 : x + w ≤ 32767)
    (hyh1 : -32768 ≤ y + h) (hyh2 : y + h ≤ 32767) :
    ((min (x + w) st._width ≤ max x 0 ∨
      min (y + h) st._height ≤ max y 0) →
      writeFillRect st x y w h c = ([], 0)) ∧
    (max x 0 < min (x + w) st._width →
     max y 0 < min (y + h) st._height →
      (writeFillRect st x y w h c).1 =
        if c = 0 then
          SSD1331_CMD_CLEAR ::
            (spiWriteXY st (max x 0) (max y 0) ++
             spiWriteXY st (min (x + w) st._width - 1)
               (min (y + h) st._height - 1))
        else
          SSD1331_CMD_FILL :: 0x01 :: SSD1331_CMD_DRAWRECT ::
            (spiWriteXY st (max x 0) (max y 0) ++
             spiWriteXY st (min (x + w) st._width - 1)
               (min (y + h) st._height - 1) ++
             spiWriteColor (wrap16 c) ++ spiWriteColor (wrap16 c))) := by
  have hwx : wrap16 (x + w) = x + w := wrap16_eq_self _ hxw1 hxw2
  have hwy : wrap16 (y + h) = y + h := wrap16_eq_self _ hyh1 hyh2
  rw [writeFillRect_eq, hwx, hwy]
  constructor
  · intro hempty
    split_ifs <;> first | rfl | (exfalso; omega)
  · intro hx hy
    split_ifs <;> first | rfl | (exfalso; omega)

/-- Witness for C1 (amended) at the rectangle (10,10,20,20), color 5. -/
theorem writeFillRect_clips_exactly_witness :
    max (10 : Int) 0 < min ((10 : Int) + 20) st96._width ∧
    max (10 : Int) 0 < min ((10 : Int) + 20) st96._height ∧
    (writeFillRect st96 10 10 20 20 5).1 =
      [0x26, 0x01, 0x22, 10, 10, 29, 29, 0, 0, 10, 0, 0, 10] := by
  refine ⟨by decide, by decide, ?_⟩
  rw [(writeFillRect_clips_exactly st96 10 10 20 20 5 (by decide) (by decide)
        (by decide) (by decide)).2 (by decide) (by decide)]
  decide

/-- C2: a `writeFillRect` with color 0 that survives clipping emits the
CLEAR opcode followed by the two clipped corner coordinate pairs — a
5-byte frame whose only opcode is CLEAR, never the fill-enable or
draw-rectangle opcodes — regardless of rectangle size and rotation. -/
theorem writeFillRect_zero_color_clear (st : SSD1331State) (x y w h : Int)
    (hne : (writeFillRect st x y w h 0).1 ≠ []) :
    (writeFillRect st x y w h 0).1 =
      SSD1331_CMD_CLEAR ::
        (spiWriteXY st (max x 0) (max y 0) ++
         spiWriteXY st (min (wrap16 (x + w)) st._width - 1)
           (min (wrap16 (y + h)) st._height - 1)) ∧
    (writeFillRect st x y w h 0).1.head? = some SSD1331_CMD_CLEAR ∧
    (writeFillRect st x y w h 0).1.head? ≠ some SSD1331_CMD_FILL ∧
    (writeFillRect st x y w h 0).1.head? ≠ some SSD1331_CMD_DRAWRECT ∧
    (writeFillRect st x y w h 0).1.length = 5 := by
  rw [writeFillRect_eq] at hne ⊢
  split_ifs at hne ⊢ with hcond hc
  · exact absurd rfl hne
  · refine ⟨rfl, rfl,
      by simp [SSD1331_CMD_CLEAR, SSD1331_CMD_FILL],
      by simp [SSD1331_CMD_CLEAR, SSD1331_CMD_DRAWRECT], ?_⟩
    unfold spiWriteXY
    split_ifs <;> rfl
  · exact absurd rfl hc

/-- Witness for C2 at the spec's example fillRect(10,10,20,20,0). -/
theorem writeFillRect_zero_color_clear_witness :
    (writeFillRect st96 10 10 20 20 0).1 ≠ [] ∧
    (writeFillRect st96 10 10 20 20 0).1.head? = some SSD1331_CMD_CLEAR :=
  ⟨by decide, (writeFillRect_zero_color_clear st96 10 10 20 20
      (by decide)).2.1⟩

/-- C3 (evaluation at the spec's example): fillRect(0,0,50,1,0x1234) — a
1-pixel-tall nonzero fill — is emitted as the 13-byte fill-enable /
draw-rectangle trace, not a DRAWLINE trace: the source's degenerate-rect
branch (`x == x1 || y == y1`), whose comment promises the line command for
1-pixel-wide-or-high rects, is unreachable because the emptiness bail-out
(`x1 - 1 < x || y1 - 1 < y`) has already returned for every such
rectangle. -/
theorem writeFillRect_one_pixel_high_uses_fillrect :
    (writeFillRect st96 0 0 50 1 0x1234).1 =
      [0x26, 0x01, 0x22, 0, 0, 49, 0, 4, 17, 40, 4, 17, 40] ∧
    (writeFillRect st96 0 0 50 1 0x1234).1.head? ≠ some SSD1331_CMD_DRAWLINE ∧
    fillRect st96 0 0 50 1 0x1234 = writeFillRect st96 0 0 50 1 0x1234 :=
  ⟨by decide, by decide, rfl⟩

/-- C6 counterexample: drawRect(95, 0, 32767, 1) on the 96x64 panel draws
(the origin is in bounds and w, h > 0), but x + w overflows int16, the
negative wrapped far corner escapes the `x1 > _width` cap, and the far
corner column byte emitted (position 5 of the trace) is 93 — not the
claimed `min (x + w) _width - 1 = 95`. -/
theorem drawRect_overflow_counterexample :
    drawRect st96 95 0 32767 1 0 =
      [0x26, 0x00, 0x22, 95, 0, 93, 0, 0, 0, 0, 0, 0, 0] ∧
    toByte (min ((95 : Int) + 32767) st96._width - 1) = 95 ∧
    (93 : Nat) ≠ 95 :=
  ⟨by decide, by decide, by decide⟩

/-- C6 (amended): provided x + w and y + h stay within int16 range,
`drawRect` clips the start point and extent independently: an
out-of-bounds origin or non-positive extent is rejected outright; when it
draws, the near corner is (x, y) as given, the far corner is capped
against the right/bottom edge only — emitted as
(min (x+w) _width - 1, min (y+h) _height - 1) — and the trace is always
the fill-disable / draw-rectangle encoding with the color duplicated,
never a clear or line shortcut. -/
theorem drawRect_caps_far_corner_only (st : SSD1331State) (x y w h : Int)
    (c : Nat) (hxw : x + w ≤ 32767) (hyh : y + h ≤ 32767) :
    ((x < 0 ∨ x ≥ st._width ∨ y < 0 ∨ y ≥ st._height ∨ w ≤ 0 ∨ h ≤ 0) →
      drawRect st x y w h c = []) ∧
    (0 ≤ x → x < st._width → 0 ≤ y → y < st._height → 0 < w → 0 < h →
      drawRect st x y w h c =
        SSD1331_CMD_FILL :: 0x00 :: SSD1331_CMD_DRAWRECT ::
          (spiWriteXY st x y ++
           spiWriteXY st (min (x + w) st._width - 1)
             (min (y + h) st._height - 1) ++
           spiWriteColor (wrap16 c) ++ spiWriteColor (wrap16 c)) ∧
      (drawRect st x y w h c).head? = some SSD1331_CMD_FILL ∧
      (drawRect st x y w h c).head? ≠ some SSD1331_CMD_CLEAR ∧
      (drawRect st x y w h c).head? ≠ some SSD1331_CMD_DRAWLINE) := by
  constructor
  · intro hbail
    simp only [drawRect]
    rw [if_pos hbail]
  · intro h1 h2 h3 h4 h5 h6
    have hnb : ¬(x < 0 ∨ x ≥ st._width ∨ y < 0 ∨ y ≥ st._height ∨
        w ≤ 0 ∨ h ≤ 0) := by omega
    simp only [drawRect]
    rw [if_neg hnb, wrap16_eq_self (x + w) (by omega) hxw,
        wrap16_eq_self (y + h) (by omega) hyh]
    have e1 : (if x + w > st._width then st._width else x + w) =
        min (x + w) st._width := by omega
    have e2 : (if y + h ≥ st._height then st._height else y + h) =
        min (y + h) st._height := by omega
    rw [e1, e2]
    exact ⟨rfl, rfl, by simp [SSD1331_CMD_FILL, SSD1331_CMD_CLEAR],
      by simp [SSD1331_CMD_FILL, SSD1331_CMD_DRAWLINE]⟩

/-- Witness for C6 (amended) at drawRect(5, 5, 200, 200, 7) on the 96x64
panel: the far corner is capped to (95, 63). -/
theorem drawRect_caps_far_corner_only_witness :
    (0 : Int) ≤ 5 ∧
    drawRect st96 5 5 200 200 7 =
      [0x26, 0x00, 0x22, 5, 5, 95, 63, 0, 0, 14, 0, 0, 14] := by
  refine ⟨by decide, ?_⟩
  rw [((drawRect_caps_far_corner_only st96 5 5 200 200 7 (by decide)
      (by decide)).2 (by decide) (by decide) (by decide) (by decide)
      (by decide) (by decide)).1]
  decide

/-- C5 counterexample: copyBits(32767, 0, 32767, 10, -32768, 0) on the
96x64 panel wraps in the int16 clip arithmetic (the doubly clipped width
wraps back to +97) and emits a copy command whose source start column is
the int16 value -1 (wire byte 255, position 3 of the trace) — the
emitted rectangle is not within [0, 96), and the mathematically clipped
extent (w minus shift minus overshoot = 32767 - 32768 - 65438) is
negative, so the claim requires a no-op here. -/
theorem copyBits_overflow_counterexample :
    (copyBits st96 32767 0 32767 10 (-32768) 0 false).1 =
      [0x26, 0x00, 0x23, 255, 0, 95, 9, 0, 0] ∧
    toByte (-1) = 255 ∧
    (32767 : Int) - 32768 - 65438 < 0 :=
  ⟨by decide, by decide, by decide⟩

/-- C5 (amended): provided the requested extents are nonnegative and the
clip arithmetic cannot wrap int16 (|x - dx| and |y - dy| at most 32767,
all inputs in int16 range, panel dimensions positive and at most 32767),
`copyBits` behaves exactly as the spec's clipping model `specCopyBits`:
origins shifted together by the amount the combined minimum is negative,
extent shrunk by that shift and by the amount the combined maximum
exceeds the edge, no-op when a resulting extent is non-positive; when it
emits, both the source and the destination rectangle lie within
[0,_width) x [0,_height), so no emitted coordinate is negative; and
copyBits(0,0,96,64,0,-8,false) emits a height-56 copy from source row 8
to destination row 0. -/
theorem copyBits_clips_within_bounds (st : SSD1331State) (x y w h dx dy : Int)
    (inv : Bool)
    (hW1 : 0 < st._width) (hW2 : st._width ≤ 32767)
    (hH1 : 0 < st._height) (hH2 : st._height ≤ 32767)
    (hw0 : 0 ≤ w) (hw1 : w ≤ 32767) (hh0 : 0 ≤ h) (hh1 : h ≤ 32767)
    (hxa : -32768 ≤ x) (hxb : x ≤ 32767)
    (hdxa : -32768 ≤ dx) (hdxb : dx ≤ 32767)
    (hya : -32768 ≤ y) (hyb : y ≤ 32767)
    (hdya : -32768 ≤ dy) (hdyb : dy ≤ 32767)
    (hxd : x - dx ≤ 32767) (hdxx : dx - x ≤ 32767)
    (hyd : y - dy ≤ 32767) (hdyy : dy - y ≤ 32767) :
    copyBits st x y w h dx dy inv = specCopyBits st x y w h dx dy inv ∧
    ((0 < w - max 0 (-(min x dx)) - max 0 (max x dx + w - st._width) ∧
      0 < h - max 0 (-(min y dy)) - max 0 (max y dy + h - st._height)) →
      (0 ≤ x + max 0 (-(min x dx)) ∧ 0 ≤ dx + max 0 (-(min x dx)) ∧
       x + max 0 (-(min x dx)) +
         (w - max 0 (-(min x dx)) - max 0 (max x dx + w - st._width))
           ≤ st._width ∧
       dx + max 0 (-(min x dx)) +
         (w - max 0 (-(min x dx)) - max 0 (max x dx + w - st._width))
           ≤ st._width ∧
       0 ≤ y + max 0 (-(min y dy)) ∧ 0 ≤ dy + max 0 (-(min y dy)) ∧
       y + max 0 (-(min y dy)) +
         (h - max 0 (-(min y dy)) - max 0 (max y dy + h - st._height))
           ≤ st._height ∧
       dy + max 0 (-(min y dy)) +
         (h - max 0 (-(min y dy)) - max 0 (max y dy + h - st._height))
           ≤ st._height)) ∧
    (copyBits st96 0 0 96 64 0 (-8) false).1 =
      [0x26, 0x00, 0x23, 0, 8, 95, 63, 0, 0] := by
  refine ⟨?_, by intro hpos; omega, by decide⟩
  simp only [copyBits, specCopyBits]
  have hx' : (if -(min x dx) > 0 then wrap16 (x + -(min x dx)) else x)
      = x + max 0 (-(min x dx)) := by
    by_cases hc : -(min x dx) > 0
    · rw [if_pos hc, wrap16_eq_self _ (by omega) (by omega)]; omega
    · rw [if_neg hc]; omega
  have hdx' : (if -(min x dx) > 0 then wrap16 (dx + -(min x dx)) else dx)
      = dx + max 0 (-(min x dx)) := by
    by_cases hc : -(min x dx) > 0
    · rw [if_pos hc, wrap16_eq_self _ (by omega) (by omega)]; omega
    · rw [if_neg hc]; omega
  have hw' : (if max x dx + w - st._width > 0 then
        wrap16 ((if -(min x dx) > 0 then wrap16 (w - -(min x dx)) else w)
          - (max x dx + w - st._width))
      else (if -(min x dx) > 0 then wrap16 (w - -(min x dx)) else w))
      = w - max 0 (-(min x dx)) - max 0 (max x dx + w - st._width) := by
    have hs1 : (if -(min x dx) > 0 then wrap16 (w - -(min x dx)) else w)
        = w - max 0 (-(min x dx)) := by
      by_cases hc : -(min x dx) > 0
      · rw [if_pos hc, wrap16_eq_self _ (by omega) (by omega)]; omega
      · rw [if_neg hc]; omega
    rw [hs1]
    by_cases hc : max x dx + w - st._width > 0
    · rw [if_pos hc, wrap16_eq_self _ (by omega) (by omega)]; omega
    · rw [if_neg hc]; omega
  have hy' : (if -(min y dy) > 0 then wrap16 (y + -(min y dy)) else y)
      = y + max 0 (-(min y dy)) := by
    by_cases hc : -(min y dy) > 0
    · rw [if_pos hc, wrap16_eq_self _ (by omega) (by omega)]; omega
    · rw [if_neg hc]; omega
  have hdy' : (if -(min y dy) > 0 then wrap16 (dy + -(min y dy)) else dy)
      = dy + max 0 (-(min y dy)) := by
    by_cases hc : -(min y dy) > 0
    · rw [if_pos hc, wrap16_eq_self _ (by omega) (by omega)]; omega
    · rw [if_neg hc]; omega
  have hh' : (if max y dy + h - st._height > 0 then
        wrap16 ((if -(min y dy) > 0 then wrap16 (h - -(min y dy)) else h)
          - (max y dy + h - st._height))
      else (if -(min y dy) > 0 then wrap16 (h - -(min y dy)) else h))
      = h - max 0 (-(min y dy)) - max 0 (max y dy + h - st._height) := by
    have hs1 : (if -(min y dy) > 0 then wrap16 (h - -(min y dy)) else h)
        = h - max 0 (-(min y dy)) := by
      by_cases hc : -(min y dy) > 0
      · rw [if_pos hc, wrap16_eq_self _ (by omega) (by omega)]; omega
      · rw [if_neg hc]; omega
    rw [hs1]
    by_cases hc : max y dy + h - st._height > 0
    · rw [if_pos hc, wrap16_eq_self _ (by omega) (by omega)]; omega
    · rw [if_neg hc]; omega
  rw [hx', hdx', hw', hy', hdy', hh']
  split_ifs <;> first | rfl | (exfalso; omega)

/-- Witness for C5 (amended) at the spec's scroll-up example. -/
theorem copyBits_clips_within_bounds_witness :
    copyBits st96 0 0 96 64 0 (-8) false =
      specCopyBits st96 0 0 96 64 0 (-8) false ∧
    (specCopyBits st96 0 0 96 64 0 (-8) false).1 =
      [0x26, 0x00, 0x23, 0, 8, 95, 63, 0, 0] :=
  ⟨(copyBits_clips_within_bounds st96 0 0 96 64 0 (-8) false
      (by decide) (by decide) (by decide) (by decide) (by decide) (by decide)
      (by decide) (by decide) (by decide) (by decide) (by decide) (by decide)
      (by decide) (by decide) (by decide) (by decide) (by decide) (by decide)
      (by decide) (by decide)).1,
   by decide⟩

end SSD1331
